import Mathlib

/-!
Shallow embedding of the progressive-overload calculation engine of the
lazy-training repository (src/src/App.jsx).

JavaScript numbers are modelled as real numbers (idealized arithmetic,
no floating-point rounding, no NaN/Infinity); detail-record fields hold
either a number or a string, modelled by `JSVal`.  The adherence analyzer
(`calculateAdaptiveFactor`) only performs rational arithmetic and is
embedded over `ℚ` so that it stays executable; the value projector
(`calculateProgressiveValue`) needs real exponentiation (`Math.pow` with a
real exponent) and is embedded over `ℝ`.
-/

namespace LazyTraining

open scoped Classical

/-- A JavaScript value stored in an exercise-details field: either a number
or a string (the only shapes the engine's detail records use). -/
inductive JSVal where
  | num (x : ℝ)
  | str (s : String)

/-- JavaScript truthiness of a `JSVal`: a number is truthy iff nonzero,
a string iff nonempty (NaN does not exist in the idealized real model). -/
def JSVal.truthy : JSVal → Prop
  | num x => x ≠ 0
  | str s => s ≠ ""

/-- Numeric value of a run of decimal digits. -/
def natOfDigits (l : List Char) : ℕ :=
  l.foldl (fun a c => 10 * a + (c.toNat - '0'.toNat)) 0

/-- Model of JavaScript `parseFloat` on the numeral shapes appearing in this
repository's data: an optional sign, then decimal digits with an optional
fractional part; `none` models a NaN result.  (Exponent notation,
leading whitespace and `Infinity` are outside the model.) -/
def jsParseFloat (s : String) : Option ℚ :=
  let cs := s.data
  let sign : ℚ × List Char :=
    match cs with
    | '+' :: t => (1, t)
    | '-' :: t => (-1, t)
    | _ => (1, cs)
  let intDigits := sign.2.takeWhile Char.isDigit
  let rest := sign.2.drop intDigits.length
  if intDigits = [] then
    match rest with
    | '.' :: t =>
      let frac := t.takeWhile Char.isDigit
      if frac = [] then none
      else some (sign.1 * ((natOfDigits frac : ℚ) / 10 ^ frac.length))
    | _ => none
  else
    match rest with
    | '.' :: t =>
      let frac := t.takeWhile Char.isDigit
      some (sign.1 * ((natOfDigits intDigits : ℚ) + (natOfDigits frac : ℚ) / 10 ^ frac.length))
    | _ => some (sign.1 * (natOfDigits intDigits : ℚ))

/-- JavaScript `parseFloat` applied to a detail-field value.  On a number it
returns the number itself (`parseFloat(String(x)) = x` for finite numbers). -/
noncomputable def jsParseFloatVal : JSVal → Option ℝ
  | JSVal.num x => some x
  | JSVal.str s => (jsParseFloat s).map (fun q => (q : ℝ))

/-- `String(v).replace(/[0-9.-]/g, '')`: every digit, `.` and `-` removed.
For a number the decimal rendering consists only of such characters
(exponent notation for extreme magnitudes is outside the model), so the
result is empty. -/
def stripNumericChars : JSVal → String
  | JSVal.num _ => ""
  | JSVal.str s => String.mk (s.data.filter fun c => !(c.isDigit || c == '.' || c == '-'))

/-- JavaScript `Math.round`: round half toward positive infinity. -/
noncomputable def jsRound (x : ℝ) : ℤ := ⌊x + 1 / 2⌋

/-- JavaScript `Number.prototype.toFixed(1)` over the idealized reals:
the integer `n` nearest to `10 * x` (ties toward the larger), printed with
one decimal digit. -/
noncomputable def jsToFixed1 (x : ℝ) : String :=
  let n : ℤ := ⌊10 * x + 1 / 2⌋
  if n < 0 then "-" ++ toString ((-n) / 10) ++ "." ++ toString ((-n) % 10)
  else toString (n / 10) ++ "." ++ toString (n % 10)

/-- `takeWhile`/`dropWhile` split on decimal digits. -/
def takeDigits (l : List Char) : List Char × List Char :=
  (l.takeWhile Char.isDigit, l.dropWhile Char.isDigit)

/-- The regex `([+-]?\d+(?:\.\d+)?)` anchored at the head of `l`:
`some (matched, rest)` when it matches there. -/
def matchNumAt (l : List Char) : Option (List Char × List Char) :=
  let signed : List Char × List Char :=
    match l with
    | '+' :: t => (['+'], t)
    | '-' :: t => (['-'], t)
    | _ => ([], l)
  let ds := (takeDigits signed.2).1
  let rest := (takeDigits signed.2).2
  if ds = [] then none
  else
    match rest with
    | '.' :: t =>
      let fs := (takeDigits t).1
      if fs = [] then some (signed.1 ++ ds, rest)
      else some (signed.1 ++ ds ++ '.' :: fs, (takeDigits t).2)
    | _ => some (signed.1 ++ ds, rest)

/-- Leftmost match of `([+-]?\d+(?:\.\d+)?)` in a character list:
`some (prefixChars, matched, rest)`, scanning positions left to right as a
JavaScript regex does. -/
def findFirstNumMatch : List Char → Option (List Char × List Char × List Char)
  | [] => none
  | c :: rest =>
    match matchNumAt (c :: rest) with
    | some (m, after) => some ([], m, after)
    | none =>
      match findFirstNumMatch rest with
      | some (pre, m, after) => some (c :: pre, m, after)
      | none => none

/-- `calculateProgressiveValue` (src/src/App.jsx:1398-1409): projects a
single baseline value to a given week under the linear or percentage
strategy.  Any strategy string other than `"percentage"` takes the linear
branch, exactly as the source's `else` does. -/
noncomputable def calculateProgressiveValue (baseValue weekNumber increment userMultiplier : ℝ)
    (strategy : String) (adaptiveFactor : ℝ) : ℝ :=
  let weeksProgressed := weekNumber - 1
  if strategy = "percentage" then
    let percentIncrease := increment / 100
    baseValue * (1 + percentIncrease) ^ (weeksProgressed * userMultiplier * adaptiveFactor)
  else
    baseValue + increment * weeksProgressed * userMultiplier * adaptiveFactor

/-- A completion-log entry as the adherence analyzer reads it: the two
fields it can observe, each possibly absent (`undefined`). -/
structure CompletionLogEntry where
  weekNumber : Option ℚ
  completedAt : Option ℚ
deriving DecidableEq

/-- The filter predicate of `calculateAdaptiveFactor`
(`log.weekNumber >= currentWeek - 3 && log.weekNumber < currentWeek`):
a missing `weekNumber` makes both comparisons false. -/
def qualifiesForWindow (currentWeek : ℚ) (e : CompletionLogEntry) : Bool :=
  match e.weekNumber with
  | none => false
  | some w => decide (currentWeek - 3 ≤ w) && decide (w < currentWeek)

/-- The tier mapping at the end of `calculateAdaptiveFactor`
(src/src/App.jsx:1433-1441), evaluated high to low. -/
def adherenceTier (completionRate : ℚ) : ℚ :=
  if completionRate ≥ 0.9 then 1.1
  else if completionRate ≥ 0.7 then 1.0
  else if completionRate ≥ 0.5 then 0.95
  else 0.9

/-- `calculateAdaptiveFactor` (src/src/App.jsx:1417-1442): the adherence
analyzer. -/
def calculateAdaptiveFactor (history : List CompletionLogEntry) (currentWeek : ℚ) : ℚ :=
  let recentWorkouts := history.filter (qualifiesForWindow currentWeek)
  if recentWorkouts.length < 3 then 1.0
  else
    let weeksCovered := min 3 (currentWeek - 1)
    let expectedWorkouts := weeksCovered * 4
    let completionRate := (recentWorkouts.length : ℚ) / expectedWorkouts
    if completionRate ≥ 0.9 then 1.1
    else if completionRate ≥ 0.7 then 1.0
    else if completionRate ≥ 0.5 then 0.95
    else 0.9

/-- The per-field increments of a progression policy; `none` models an
absent (`undefined`) increment. -/
structure ProgressionIncrements where
  sets : Option ℝ
  reps : Option ℝ
  weight : Option ℝ
  duration : Option ℝ

/-- `progressionSettings` as `applyProgression` destructures it. -/
structure ProgressionSettings where
  strategy : String
  increments : ProgressionIncrements
  userMultiplier : ℝ

/-- A baseline details record: the four progressable fields, the two
non-progressing fields, and a bag of any further fields, each possibly
absent. -/
structure BaselineDetails where
  sets : Option JSVal
  reps : Option JSVal
  weight : Option JSVal
  duration : Option JSVal
  rest : Option JSVal
  description : Option JSVal
  extra : List (String × JSVal)

/-- First block of `applyProgression` (src/src/App.jsx:1457-1461):
`typeof baselineDetails.sets === 'number' && increments.sets`. -/
noncomputable def setsStep (bd : BaselineDetails) (currentWeek : ℝ) (ps : ProgressionSettings)
    (adaptiveFactor : ℝ) (r : BaselineDetails) : BaselineDetails :=
  match bd.sets, ps.increments.sets with
  | some (JSVal.num x), some inc =>
    if inc ≠ 0 then
      { r with sets := some (JSVal.num ((jsRound (calculateProgressiveValue x currentWeek inc
          ps.userMultiplier ps.strategy adaptiveFactor) : ℤ) : ℝ)) }
    else r
  | _, _ => r

/-- Second block of `applyProgression` (src/src/App.jsx:1463-1474): reps,
which may be a number or a string such as `"10s"`; the unit suffix is
re-appended after rounding. -/
noncomputable def repsStep (bd : BaselineDetails) (currentWeek : ℝ) (ps : ProgressionSettings)
    (adaptiveFactor : ℝ) (r : BaselineDetails) : BaselineDetails :=
  match bd.reps with
  | none => r
  | some rv =>
    if rv.truthy then
      match jsParseFloatVal rv, ps.increments.reps with
      | some repsNum, some inc =>
        if inc ≠ 0 then
          let newReps := calculateProgressiveValue repsNum currentWeek inc
            ps.userMultiplier ps.strategy adaptiveFactor
          { r with reps := some (JSVal.str (toString (jsRound newReps) ++ stripNumericChars rv)) }
        else r
      | _, _ => r
    else r

/-- Third block of `applyProgression` (src/src/App.jsx:1477-1487): weight,
a string whose first embedded numeral (if any) is projected, formatted with
`toFixed(1)` and substituted back.  The matched numeral always parses, so
the `none` parse arm is unreachable. -/
noncomputable def weightStep (bd : BaselineDetails) (currentWeek : ℝ) (ps : ProgressionSettings)
    (adaptiveFactor : ℝ) (r : BaselineDetails) : BaselineDetails :=
  match bd.weight with
  | some (JSVal.str s) =>
    if s ≠ "" then
      match findFirstNumMatch s.data, ps.increments.weight with
      | some (pre, m, post), some inc =>
        if inc ≠ 0 then
          match jsParseFloat (String.mk m) with
          | some baseWeight =>
            let newWeight := calculateProgressiveValue (baseWeight : ℝ) currentWeek inc
              ps.userMultiplier ps.strategy adaptiveFactor
            { r with weight := some (JSVal.str (String.mk pre ++ jsToFixed1 newWeight ++ String.mk post)) }
          | none => r
        else r
      | _, _ => r
    else r
  | _ => r

/-- Fourth block of `applyProgression` (src/src/App.jsx:1490-1494):
`typeof baselineDetails.duration === 'number' && increments.duration`. -/
noncomputable def durationStep (bd : BaselineDetails) (currentWeek : ℝ) (ps : ProgressionSettings)
    (adaptiveFactor : ℝ) (r : BaselineDetails) : BaselineDetails :=
  match bd.duration, ps.increments.duration with
  | some (JSVal.num x), some inc =>
    if inc ≠ 0 then
      { r with duration := some (JSVal.num ((jsRound (calculateProgressiveValue x currentWeek inc
          ps.userMultiplier ps.strategy adaptiveFactor) : ℤ) : ℝ)) }
    else r
  | _, _ => r

/-- `applyProgression` (src/src/App.jsx:1452-1497): starts from a copy of
the baseline record and rewrites the four progressable fields in source
order, each block reading its conditions from the baseline. -/
noncomputable def applyProgression (baselineDetails : BaselineDetails) (currentWeek : ℝ)
    (progressionSettings : ProgressionSettings) (adaptiveFactor : ℝ) : BaselineDetails :=
  let r0 := baselineDetails
  let r1 := setsStep baselineDetails currentWeek progressionSettings adaptiveFactor r0
  let r2 := repsStep baselineDetails currentWeek progressionSettings adaptiveFactor r1
  let r3 := weightStep baselineDetails currentWeek progressionSettings adaptiveFactor r2
  durationStep baselineDetails currentWeek progressionSettings adaptiveFactor r3

/-- Schedule Clock (src/src/App.jsx:2796-2798):
`currentPlanWeek = Math.floor(diffDays / 7) % plan.durationWeeks + 1`. -/
def currentPlanWeek (diffDays durationWeeks : ℕ) : ℕ :=
  diffDays / 7 % durationWeeks + 1

/-- Concrete baseline record of the unit-preservation scenario: reps is the
string `"10s"`, every other field absent. -/
def c2Baseline : BaselineDetails :=
  { sets := none, reps := some (JSVal.str "10s"), weight := none, duration := none,
    rest := none, description := none, extra := [] }

/-- Concrete progression settings of the unit-preservation scenario:
linear strategy, `increments.reps = 2`, `userMultiplier = 1.0`. -/
def c2Settings : ProgressionSettings :=
  { strategy := "linear",
    increments := { sets := none, reps := some 2, weight := none, duration := none },
    userMultiplier := 1 }

/-- Concrete history showing that `completedAt` is never consulted by the
adherence filter: three entries inside the week-4 window, the third lacking
`completedAt`. -/
def c6History : List CompletionLogEntry :=
  [⟨some 1, some 0⟩, ⟨some 1, some 0⟩, ⟨some 1, none⟩]

/-- Concrete history whose entries all carry a week number at least 1. -/
def c9History : List CompletionLogEntry :=
  [⟨some 2, none⟩, ⟨some 1, some 5⟩]

/-- Concrete baseline record whose reps field is the plain number `0`
(falsy in JavaScript, so the reps block is skipped). -/
def c10ZeroBaseline : BaselineDetails :=
  { sets := none, reps := some (JSVal.num 0), weight := none, duration := none,
    rest := none, description := none, extra := [] }

/-- Concrete baseline record whose reps field is the plain number `10`. -/
def c10NumBaseline : BaselineDetails :=
  { sets := none, reps := some (JSVal.num 10), weight := none, duration := none,
    rest := none, description := none, extra := [] }

/- ------------------------------------------------------------------ -/
/- Helper lemmas shared by the claim theorems.                        -/
/- ------------------------------------------------------------------ -/

/-- The linear branch of the value projector, written out. -/
theorem calcPV_linear (b w i m f : ℝ) :
    calculateProgressiveValue b w i m "linear" f = b + i * (w - 1) * m * f := by
  simp [calculateProgressiveValue]

/-- Rounding a real that is exactly an integer. -/
theorem jsRound_of_eq (x : ℝ) (n : ℤ) (h : x = n) : jsRound x = n := by
  rw [jsRound, h, Int.floor_eq_iff]
  constructor
  · norm_num
  · norm_num

/-- The adherence analyzer, written as one conditional over the tier map. -/
theorem calcAF_eq (history : List CompletionLogEntry) (cw : ℚ) :
    calculateAdaptiveFactor history cw =
      if (List.filter (qualifiesForWindow cw) history).length < 3 then 1.0
      else adherenceTier (((List.filter (qualifiesForWindow cw) history).length : ℚ) /
        (min 3 (cw - 1) * 4)) := rfl

/-- The sets block never touches reps, rest, description or the extra
fields. -/
theorem setsStep_frame (bd : BaselineDetails) (cw : ℝ) (ps : ProgressionSettings) (f : ℝ)
    (r : BaselineDetails) :
    (setsStep bd cw ps f r).reps = r.reps ∧ (setsStep bd cw ps f r).rest = r.rest ∧
    (setsStep bd cw ps f r).description = r.description ∧
    (setsStep bd cw ps f r).extra = r.extra := by
  unfold setsStep
  split
  · split <;> exact ⟨rfl, rfl, rfl, rfl⟩
  · exact ⟨rfl, rfl, rfl, rfl⟩

/-- The reps block never touches rest, description or the extra fields. -/
theorem repsStep_frame (bd : BaselineDetails) (cw : ℝ) (ps : ProgressionSettings) (f : ℝ)
    (r : BaselineDetails) :
    (repsStep bd cw ps f r).rest = r.rest ∧
    (repsStep bd cw ps f r).description = r.description ∧
    (repsStep bd cw ps f r).extra = r.extra := by
  unfold repsStep
  split
  · exact ⟨rfl, rfl, rfl⟩
  · split
    · split
      · split <;> exact ⟨rfl, rfl, rfl⟩
      · exact ⟨rfl, rfl, rfl⟩
    · exact ⟨rfl, rfl, rfl⟩

/-- The weight block never touches reps, rest, description or the extra
fields. -/
theorem weightStep_frame (bd : BaselineDetails) (cw : ℝ) (ps : ProgressionSettings) (f : ℝ)
    (r : BaselineDetails) :
    (weightStep bd cw ps f r).reps = r.reps ∧ (weightStep bd cw ps f r).rest = r.rest ∧
    (weightStep bd cw ps f r).description = r.description ∧
    (weightStep bd cw ps f r).extra = r.extra := by
  unfold weightStep
  split
  · split
    · split
      · split
        · split <;> exact ⟨rfl, rfl, rfl, rfl⟩
        · exact ⟨rfl, rfl, rfl, rfl⟩
      · exact ⟨rfl, rfl, rfl, rfl⟩
    · exact ⟨rfl, rfl, rfl, rfl⟩
  · exact ⟨rfl, rfl, rfl, rfl⟩

/-- The duration block never touches reps, rest, description or the extra
fields. -/
theorem durationStep_frame (bd : BaselineDetails) (cw : ℝ) (ps : ProgressionSettings) (f : ℝ)
    (r : BaselineDetails) :
    (durationStep bd cw ps f r).reps = r.reps ∧ (durationStep bd cw ps f r).rest = r.rest ∧
    (durationStep bd cw ps f r).description = r.description ∧
    (durationStep bd cw ps f r).extra = r.extra := by
  unfold durationStep
  split
  · split <;> exact ⟨rfl, rfl, rfl, rfl⟩
  · exact ⟨rfl, rfl, rfl, rfl⟩

/-- What the reps block writes when the baseline reps field holds a nonzero
plain number and a nonzero reps increment is configured: the rounded
projected value rendered as a string, with the (empty) unit suffix of the
number appended. -/
theorem repsStep_num (bd : BaselineDetails) (cw : ℝ) (ps : ProgressionSettings) (f : ℝ)
    (r : BaselineDetails) (x i : ℝ) (hx : bd.reps = some (JSVal.num x)) (hx0 : x ≠ 0)
    (hi : ps.increments.reps = some i) (hi0 : i ≠ 0) :
    (repsStep bd cw ps f r).reps =
      some (JSVal.str (toString (jsRound (calculateProgressiveValue x cw i
        ps.userMultiplier ps.strategy f)))) := by
  unfold repsStep
  rw [hx]
  simp only []
  rw [if_pos (show (JSVal.num x).truthy from hx0)]
  rw [show jsParseFloatVal (JSVal.num x) = some x from rfl, hi]
  simp only []
  rw [if_pos hi0]
  simp [stripNumericChars, String.append_empty]

/-- Evaluation of the unit-preservation scenario at week 3: the projected
reps value is 10 + 2 * (3 - 1) * 1 * 1 = 14, so the field becomes `"14s"`. -/
theorem c2_eval : (applyProgression c2Baseline 3 c2Settings 1).reps =
    some (JSVal.str "14s") := by
  have hparse : jsParseFloatVal (JSVal.str "10s") = some 10 := by
    simp +decide [jsParseFloatVal, jsParseFloat, natOfDigits]
  have hround : jsRound (calculateProgressiveValue 10 3 2 1 "linear" 1) = 14 :=
    jsRound_of_eq _ 14 (by rw [calcPV_linear]; norm_num)
  simp only [applyProgression, setsStep, repsStep, weightStep, durationStep,
    c2Baseline, c2Settings]
  simp only [JSVal.truthy]
  rw [if_pos (by decide)]
  rw [hparse]
  simp only []
  rw [if_pos (by norm_num : (2 : ℝ) ≠ 0)]
  simp only [hround]
  simp +decide [stripNumericChars]

/- ------------------------------------------------------------------ -/
/- Claim theorems.                                                    -/
/- ------------------------------------------------------------------ -/

/-- C1: for every finite baseValue, increment, userMultiplier,
adaptiveFactor and every weekNumber at least 1, the linear strategy returns
baseValue + increment * (weekNumber - 1) * userMultiplier * adaptiveFactor
and the percentage strategy returns
baseValue * (1 + increment/100) ^ ((weekNumber - 1) * userMultiplier * adaptiveFactor). -/
theorem c1_value_projector_formulas (b i m f w : ℝ) (hw : 1 ≤ w) :
    calculateProgressiveValue b w i m "linear" f = b + i * (w - 1) * m * f ∧
    calculateProgressiveValue b w i m "percentage" f =
      b * (1 + i / 100) ^ ((w - 1) * m * f) := by
  constructor
  · exact calcPV_linear b w i m f
  · simp [calculateProgressiveValue]

/-- Witness for C1 at baseValue 10, increment 2, multiplier 1, factor 1,
week 3. -/
theorem c1_value_projector_witness :
    (1 : ℝ) ≤ 3 ∧
    (calculateProgressiveValue 10 3 2 1 "linear" 1 = 10 + 2 * (3 - 1) * 1 * 1 ∧
     calculateProgressiveValue 10 3 2 1 "percentage" 1 =
       10 * (1 + 2 / 100) ^ (((3 : ℝ) - 1) * 1 * 1)) :=
  ⟨by norm_num, c1_value_projector_formulas 10 2 1 1 3 (by norm_num)⟩

/-- C2 counterexample: projecting reps `"10s"` with increments.reps = 2
(linear, multiplier 1, factor 1) at week 3 yields `"14s"`, not `"12s"`:
weeksProgressed = 3 - 1 = 2, so the numeral becomes 10 + 2 * 2 = 14. -/
theorem c2_unit_preservation_counterexample :
    (applyProgression c2Baseline 3 c2Settings 1).reps = some (JSVal.str "14s") ∧
    (applyProgression c2Baseline 3 c2Settings 1).reps ≠ some (JSVal.str "12s") := by
  refine ⟨c2_eval, ?_⟩
  rw [c2_eval]
  intro h
  have : "14s" = "12s" := by injection (Option.some.inj h)
  exact absurd this (by decide)

/-- C2 amended: projecting a baseline reps field `"10s"` with
increments.reps = 2 (linear strategy, userMultiplier 1.0, adaptiveFactor
1.0) at weekNumber 3 yields the string `"14s"` (unit suffix intact,
numeral updated; `"12s"` is the week-2 value). -/
theorem c2_unit_preservation_amended :
    (applyProgression c2Baseline 3 c2Settings 1).reps = some (JSVal.str "14s") :=
  c2_eval

/-- C3 counterexample: for durationWeeks = 12, daysSinceStart = 83 gives
floor(83/7) = 11, and 11 mod 12 + 1 = 12, not 1. -/
theorem c3_wraparound_counterexample :
    currentPlanWeek 83 12 = 12 ∧ currentPlanWeek 83 12 ≠ 1 := by decide

/-- C3 amended: for durationWeeks = 12 the Schedule Clock wraps back to
week 1 at daysSinceStart = 84 (the first day of the un-wrapped 13th week);
daysSinceStart = 83 still lies in un-wrapped week 12.  In general
currentWeekNumber = (floor(daysSinceStart / 7) mod durationWeeks) + 1. -/
theorem c3_wraparound_amended :
    (∀ d dw : ℕ, currentPlanWeek d dw = d / 7 % dw + 1) ∧
    currentPlanWeek 84 12 = 1 :=
  ⟨fun _ _ => rfl, by decide⟩

/-- C4: whenever at least 3 qualifying entries exist the analyzer returns
the tier of the completion rate; the tier map is a non-decreasing step
function taking only the values 0.9, 0.95, 1.0, 1.1, with inclusive lower
bounds evaluated high to low, so the boundary rates 0.5, 0.7, 0.9 map to
the higher tier. -/
theorem c4_adherence_tier_monotone_step :
    (∀ history cw, 3 ≤ (List.filter (qualifiesForWindow cw) history).length →
      calculateAdaptiveFactor history cw =
        adherenceTier (((List.filter (qualifiesForWindow cw) history).length : ℚ) /
          (min 3 (cw - 1) * 4))) ∧
    Monotone adherenceTier ∧
    (∀ r, adherenceTier r = 0.9 ∨ adherenceTier r = 0.95 ∨ adherenceTier r = 1.0 ∨
      adherenceTier r = 1.1) ∧
    (∀ r, 0.9 ≤ r → adherenceTier r = 1.1) ∧
    (∀ r, 0.7 ≤ r → r < 0.9 → adherenceTier r = 1.0) ∧
    (∀ r, 0.5 ≤ r → r < 0.7 → adherenceTier r = 0.95) ∧
    (∀ r, r < 0.5 → adherenceTier r = 0.9) ∧
    adherenceTier 0.5 = 0.95 ∧ adherenceTier 0.7 = 1.0 ∧ adherenceTier 0.9 = 1.1 := by
  refine ⟨?_, ?_, ?_, ?_, ?_, ?_, ?_, ?_, ?_, ?_⟩
  · intro history cw hlen
    rw [calcAF_eq, if_neg (by omega)]
  · intro a b hab
    unfold adherenceTier
    split_ifs <;> linarith
  · intro r
    unfold adherenceTier
    split_ifs <;> simp
  · intro r hr
    rw [adherenceTier, if_pos (by exact hr)]
  · intro r h1 h2
    rw [adherenceTier, if_neg (by simp; linarith), if_pos (by exact h1)]
  · intro r h1 h2
    rw [adherenceTier, if_neg (by simp; linarith), if_neg (by simp; linarith),
      if_pos (by exact h1)]
  · intro r h1
    rw [adherenceTier, if_neg (by simp; linarith), if_neg (by simp; linarith),
      if_neg (by simp; linarith)]
  · norm_num [adherenceTier]
  · norm_num [adherenceTier]
  · norm_num [adherenceTier]

/-- C5: an entry qualifies exactly when it carries a weekNumber in the
window currentWeek - 3 <= weekNumber < currentWeek; with fewer than 3
qualifying entries the analyzer returns 1.0 unconditionally, otherwise it
tiers completionRate = qualifyingCount / (min(3, currentWeek - 1) * 4). -/
theorem c5_window_filter_and_default :
    (∀ cw e, qualifiesForWindow cw e = true ↔
      ∃ w, e.weekNumber = some w ∧ cw - 3 ≤ w ∧ w < cw) ∧
    (∀ history cw, calculateAdaptiveFactor history cw =
      if (List.filter (qualifiesForWindow cw) history).length < 3 then 1.0
      else adherenceTier (((List.filter (qualifiesForWindow cw) history).length : ℚ) /
        (min 3 (cw - 1) * 4))) := by
  constructor
  · intro cw e
    cases h : e.weekNumber with
    | none => simp [qualifiesForWindow, h]
    | some w => simp [qualifiesForWindow, h]
  · exact calcAF_eq

/-- C6 counterexample: an entry with a qualifying weekNumber but no
completedAt still counts.  On three week-1 entries at currentWeek 4, one of
them lacking completedAt, the analyzer returns 0.9, while on the
sub-history of entries carrying both fields (two entries, insufficient
signal) it returns 1.0. -/
theorem c6_completedAt_not_checked_counterexample :
    calculateAdaptiveFactor c6History 4 = 0.9 ∧
    calculateAdaptiveFactor
      (List.filter (fun e => e.weekNumber.isSome && e.completedAt.isSome) c6History) 4 = 1.0 ∧
    (0.9 : ℚ) ≠ 1.0 := by
  refine ⟨?_, ?_, by norm_num⟩
  · norm_num [c6History, calculateAdaptiveFactor, qualifiesForWindow, List.filter_cons,
      adherenceTier]
  · norm_num [c6History, calculateAdaptiveFactor, qualifiesForWindow, List.filter_cons]

/-- C6 amended: entries lacking a weekNumber are excluded from adherence
analysis (the window predicate is false for them), so the analyzer returns
the same result as on the sub-history of entries carrying a weekNumber;
the completedAt field is never consulted by calculateAdaptiveFactor. -/
theorem c6_missing_weekNumber_excluded (history : List CompletionLogEntry) (cw : ℚ) :
    calculateAdaptiveFactor history cw =
      calculateAdaptiveFactor (List.filter (fun e => e.weekNumber.isSome) history) cw := by
  have hfil : List.filter (qualifiesForWindow cw)
      (List.filter (fun e => e.weekNumber.isSome) history) =
      List.filter (qualifiesForWindow cw) history := by
    rw [List.filter_filter]
    congr 1
    funext e
    cases h : e.weekNumber <;> simp [qualifiesForWindow, h]
  simp only [calculateAdaptiveFactor, hfil]

/-- C7: projecting any baseline with weekNumber = 1 returns the baseline
unchanged, for every increment, multiplier, strategy string and adaptive
factor (zero weeks progressed). -/
theorem c7_week1_identity (v i m f : ℝ) (s : String) :
    calculateProgressiveValue v 1 i m s f = v := by
  simp only [calculateProgressiveValue]
  split
  · rw [show ((1 : ℝ) - 1) * m * f = 0 by ring, Real.rpow_zero, mul_one]
  · ring

/-- C8: the Detail Projector never modifies rest, description, or any
field other than sets, reps, weight and duration: those fields reach the
output with their baseline values unchanged, for every baseline record,
week, settings and adaptive factor. -/
theorem c8_rest_description_unchanged (bd : BaselineDetails) (cw : ℝ)
    (ps : ProgressionSettings) (f : ℝ) :
    (applyProgression bd cw ps f).rest = bd.rest ∧
    (applyProgression bd cw ps f).description = bd.description ∧
    (applyProgression bd cw ps f).extra = bd.extra := by
  unfold applyProgression
  obtain ⟨-, hs2, hs3, hs4⟩ := setsStep_frame bd cw ps f bd
  obtain ⟨hr2, hr3, hr4⟩ := repsStep_frame bd cw ps f (setsStep bd cw ps f bd)
  obtain ⟨-, hw2, hw3, hw4⟩ := weightStep_frame bd cw ps f
    (repsStep bd cw ps f (setsStep bd cw ps f bd))
  obtain ⟨-, hd2, hd3, hd4⟩ := durationStep_frame bd cw ps f
    (weightStep bd cw ps f (repsStep bd cw ps f (setsStep bd cw ps f bd)))
  exact ⟨by rw [hd2, hw2, hr2, hs2], by rw [hd3, hw3, hr3, hs3], by rw [hd4, hw4, hr4, hs4]⟩

/-- C9: at currentWeek = 1, when every history entry carries a weekNumber
at least 1, the trailing window admits no entries, so the
insufficient-data branch returns 1.0 and the completion-rate division
(whose denominator min(3, 0) * 4 would be 0) is never reached. -/
theorem c9_week1_returns_one (history : List CompletionLogEntry)
    (h : ∀ e ∈ history, ∃ w, e.weekNumber = some w ∧ 1 ≤ w) :
    calculateAdaptiveFactor history 1 = 1.0 := by
  have hfil : List.filter (qualifiesForWindow 1) history = [] := by
    rw [List.filter_eq_nil_iff]
    intro e he
    obtain ⟨w, hw, h1⟩ := h e he
    simp only [qualifiesForWindow, hw]
    simp only [Bool.and_eq_true, decide_eq_true_eq, not_and]
    intro _
    linarith
  simp [calculateAdaptiveFactor, hfil]

/-- Witness for C9 on a two-entry history with week numbers 2 and 1. -/
theorem c9_week1_returns_one_witness :
    (∀ e ∈ c9History, ∃ w, e.weekNumber = some w ∧ 1 ≤ w) ∧
    calculateAdaptiveFactor c9History 1 = 1.0 := by
  have h : ∀ e ∈ c9History, ∃ w, e.weekNumber = some w ∧ 1 ≤ w := by
    intro e he
    simp only [c9History, List.mem_cons, List.not_mem_nil, or_false] at he
    rcases he with rfl | rfl
    · exact ⟨2, rfl, by norm_num⟩
    · exact ⟨1, rfl, le_refl 1⟩
  exact ⟨h, c9_week1_returns_one c9History h⟩

/-- C10 counterexample: a baseline reps field holding the plain number 0 is
falsy in JavaScript, so the reps block is skipped even though
increments.reps = 2 is set and nonzero: reps stays the number 0 and its
type does not change to string. -/
theorem c10_zero_reps_counterexample :
    (applyProgression c10ZeroBaseline 3 c2Settings 1).reps = some (JSVal.num 0) ∧
    (∀ s, JSVal.num 0 ≠ JSVal.str s) := by
  constructor
  · simp only [applyProgression, setsStep, repsStep, weightStep, durationStep,
      c10ZeroBaseline, c2Settings]
    simp [JSVal.truthy]
  · intro s h
    cases h

/-- C10 amended: if the baseline reps field is a plain nonzero number and
increments.reps is set and nonzero, the Detail Projector returns reps as a
string: the rounded projected value concatenated with the (empty) unit
suffix, so the field's type changes from number to string. -/
theorem c10_nonzero_numeric_reps_string (bd : BaselineDetails) (cw : ℝ)
    (ps : ProgressionSettings) (f : ℝ) (x i : ℝ)
    (hx : bd.reps = some (JSVal.num x)) (hx0 : x ≠ 0)
    (hi : ps.increments.reps = some i) (hi0 : i ≠ 0) :
    (applyProgression bd cw ps f).reps =
      some (JSVal.str (toString (jsRound (calculateProgressiveValue x cw i
        ps.userMultiplier ps.strategy f)))) := by
  unfold applyProgression
  obtain ⟨hw1, -, -, -⟩ := weightStep_frame bd cw ps f
    (repsStep bd cw ps f (setsStep bd cw ps f bd))
  obtain ⟨hd1, -, -, -⟩ := durationStep_frame bd cw ps f
    (weightStep bd cw ps f (repsStep bd cw ps f (setsStep bd cw ps f bd)))
  rw [hd1, hw1, repsStep_num bd cw ps f _ x i hx hx0 hi hi0]

/-- Witness for C10 on the plain-number baseline reps = 10 with
increments.reps = 2 at week 3. -/
theorem c10_nonzero_numeric_reps_string_witness :
    (c10NumBaseline.reps = some (JSVal.num 10) ∧ (10 : ℝ) ≠ 0 ∧
     c2Settings.increments.reps = some 2 ∧ (2 : ℝ) ≠ 0) ∧
    (applyProgression c10NumBaseline 3 c2Settings 1).reps =
      some (JSVal.str (toString (jsRound (calculateProgressiveValue 10 3 2
        c2Settings.userMultiplier c2Settings.strategy 1)))) :=
  ⟨⟨rfl, by norm_num, rfl, by norm_num⟩,
    c10_nonzero_numeric_reps_string c10NumBaseline 3 c2Settings 1 10 2 rfl
      (by norm_num) rfl (by norm_num)⟩

end LazyTraining
